import Mathlib

/-!
Verification of the multi-page PDF batch-analysis pipeline of
src/handwritten.py (lines 31-51 and 124-170).

The embedding models one run of the "Analyze Full PDF" branch. A page of
the uploaded document is abstracted by the two external effects the loop
performs for it:

* `renderResult` — the outcome of rendering the page to an RGB image
  (lines 138-139, `page.get_pixmap` / `Image.frombytes`): either success
  or a raised exception carrying a message. The loop wraps this call in
  no try/except, so an error here propagates.
* `apiResult`    — the outcome of the raw external generation call inside
  `analyze_image` (line 47, `model.generate_content` plus the
  `response.text` access): either the returned text or a raised exception
  carrying a message.

Exceptions are modelled with `Except String`, the payload standing for the
exception message.
-/

/-- One page of the uploaded source document, abstracted by the outcomes
of the two external calls the loop performs for it. -/
structure Page where
  renderResult : Except String Unit
  apiResult : Except String String

/-- Embedding of `analyze_image` (lines 31-51): the whole body is inside
`try ... except Exception: return None`, so the function returns the
text of the response on success and `None` on any raised exception. -/
def analyze_image (call : Except String String) : Option String :=
  match call with
  | Except.ok text => some text
  | Except.error _ => none

/-- The literal marker string appended for a failed page (line 157). -/
def failureMarker : String := "[ANALYSIS FAILED]"

/-- Embedding of the f-string at lines 153 and 157:
`f"## Results for Page {i + 1}\n\n{body}"` for the 0-based loop index `i`. -/
def page_result_for_doc (i : Nat) (body : String) : String :=
  "## Results for Page " ++ toString (i + 1) ++ "\n\n" ++ body

/-- The section appended to `all_results` for loop index `i` given the
value returned by `analyze_image` (lines 151-157). Python truthiness of
`Optional[str]` makes `if analysis_result:` take the success branch
exactly when the result is a non-empty string. -/
def pageSectionOf (i : Nat) (analysis_result : Option String) : String :=
  match analysis_result with
  | some t =>
      if t == "" then page_result_for_doc i failureMarker
      else page_result_for_doc i t
  | none => page_result_for_doc i failureMarker

/-- Embedding of the `for i, page in enumerate(doc)` loop (lines 134-157),
started at loop index `i`. Each iteration first renders the page — an
exception there is uncaught and aborts the whole loop, discarding
`all_results` — then calls `analyze_image` (which cannot raise) and
appends one section to the accumulated list. -/
def analyzeFrom (i : Nat) : List Page → Except String (List String)
  | [] => Except.ok []
  | page :: rest =>
    match page.renderResult with
    | Except.error e => Except.error e
    | Except.ok _ =>
      match analyzeFrom (i + 1) rest with
      | Except.error e => Except.error e
      | Except.ok tail =>
          Except.ok (pageSectionOf i (analyze_image page.apiResult) :: tail)

/-- The value of `all_results` after the loop (line 132 + lines 134-157),
or the uncaught exception that aborted the loop. -/
def all_resultsOf (pages : List Page) : Except String (List String) :=
  analyzeFrom 0 pages

/-- Embedding of the whole "Analyze Full PDF" click handler (lines
131-170): run the loop; afterwards `if all_results:` (line 159) builds
`final_analysis = "\n\n".join(all_results)` (line 161) and offers the
export exactly when the list is non-empty. `Except.ok none` is a run that
finished without producing any artifact and without raising. -/
def runPipeline (pages : List Page) : Except String (Option String) :=
  match all_resultsOf pages with
  | Except.error e => Except.error e
  | Except.ok all_results =>
    if all_results.isEmpty then Except.ok none
    else Except.ok (some (String.intercalate "\n\n" all_results))

/-- The ordered section list built from an outcome sequence, starting at
0-based page index `i`: the per-outcome part of lines 151-157, detached
from the loop as the ResultAggregator of the specification. -/
def sectionsFrom (i : Nat) : List (Option String) → List String
  | [] => []
  | r :: rest => pageSectionOf i r :: sectionsFrom (i + 1) rest

/-- The ResultAggregator of the specification: the per-outcome sections in
input order, joined with the fixed blank-line separator of line 161. -/
def aggregate (outcomes : List (Option String)) : String :=
  String.intercalate "\n\n" (sectionsFrom 0 outcomes)

/-- Number of loop iterations that run to completion (append a section)
before the run ends: with no render failure this is every page; a render
exception ends the run at the first failing page (lines 134-157). -/
def processedPages : List Page → Nat
  | [] => 0
  | page :: rest =>
    match page.renderResult with
    | Except.error _ => 0
    | Except.ok _ => 1 + processedPages rest

/-- A page whose render and analysis both succeed, returning "T1". -/
def pageOkT1 : Page := ⟨Except.ok (), Except.ok "T1"⟩

/-- A page whose render and analysis both succeed, returning "T2". -/
def pageOkT2 : Page := ⟨Except.ok (), Except.ok "T2"⟩

/-- A page that renders but whose generation call raises (network error). -/
def pageApiFail : Page := ⟨Except.ok (), Except.error "network error"⟩

/-- A page whose render call raises: malformed page data. -/
def pageRenderFail : Page := ⟨Except.error "malformed page data", Except.ok "T"⟩

/-- The section list has one entry per outcome. -/
theorem sectionsFrom_length (i : Nat) (os : List (Option String)) :
    (sectionsFrom i os).length = os.length := by
  induction os generalizing i with
  | nil => rfl
  | cons r rest ih => simp [sectionsFrom, ih]

/-- The entry of the section list at position `j` is the section computed
for the outcome at position `j`, at absolute page index `i + j`. -/
theorem sectionsFrom_get (os : List (Option String)) (i j : Nat) (r : Option String)
    (h : os[j]? = some r) :
    (sectionsFrom i os)[j]? = some (pageSectionOf (i + j) r) := by
  induction os generalizing i j with
  | nil => simp at h
  | cons r0 rest ih =>
    cases j with
    | zero =>
      simp at h
      simp [sectionsFrom, h]
    | succ j2 =>
      simp at h
      have step := ih (i + 1) j2 h
      have harith : i + 1 + j2 = i + (j2 + 1) := by omega
      rw [harith] at step
      simpa [sectionsFrom] using step

/-- When the loop finishes without an uncaught exception, the list it
built is exactly the ordered section list of the per-page analysis
outcomes. -/
theorem analyzeFrom_ok_eq (pages : List Page) (i : Nat) (rs : List String)
    (h : analyzeFrom i pages = Except.ok rs) :
    rs = sectionsFrom i (pages.map fun p => analyze_image p.apiResult) := by
  induction pages generalizing i rs with
  | nil =>
    simp [analyzeFrom] at h
    simp [h, sectionsFrom]
  | cons page rest ih =>
    rw [analyzeFrom] at h
    cases hr : page.renderResult with
    | error e => rw [hr] at h; exact absurd h (by simp)
    | ok u =>
      rw [hr] at h
      cases ht : analyzeFrom (i + 1) rest with
      | error e => rw [ht] at h; exact absurd h (by simp)
      | ok tail =>
        rw [ht] at h
        simp at h
        subst h
        simp [sectionsFrom, ih (i + 1) tail ht]

/-- When every page renders successfully, the loop finishes and returns
exactly the ordered section list of the per-page analysis outcomes. -/
theorem analyzeFrom_ok_of_renders (pages : List Page) (i : Nat)
    (hall : ∀ p ∈ pages, p.renderResult = Except.ok ()) :
    analyzeFrom i pages =
      Except.ok (sectionsFrom i (pages.map fun p => analyze_image p.apiResult)) := by
  induction pages generalizing i with
  | nil => simp [analyzeFrom, sectionsFrom]
  | cons page rest ih =>
    have hpage : page.renderResult = Except.ok () :=
      hall page (List.mem_cons_self page rest)
    have hrest : ∀ p ∈ rest, p.renderResult = Except.ok () :=
      fun p hp => hall p (List.mem_cons_of_mem page hp)
    rw [analyzeFrom, hpage, ih i.succ hrest]
    simp [sectionsFrom]

/-- When some page fails to render, the loop ends with an uncaught
exception and no result list at all. -/
theorem analyzeFrom_error_of_mem (pages : List Page) (i : Nat) (p : Page) (e : String)
    (hp : p ∈ pages) (he : p.renderResult = Except.error e) :
    ∃ d, analyzeFrom i pages = Except.error d := by
  induction pages generalizing i with
  | nil => cases hp
  | cons q rest ih =>
    cases hq : q.renderResult with
    | error d => exact ⟨d, by rw [analyzeFrom, hq]⟩
    | ok u =>
      have hmem : p ∈ rest := by
        cases hp with
        | head => rw [he] at hq; cases hq
        | tail _ h2 => exact h2
      obtain ⟨d, hd⟩ := ih (i + 1) hmem
      refine ⟨d, ?_⟩
      rw [analyzeFrom, hq, hd]

/-- The section built for any outcome begins with the header carrying the
1-based page number for loop index `i`, whatever the outcome was. -/
theorem pageSectionOf_shape (i : Nat) (r : Option String) :
    ∃ body, pageSectionOf i r =
      "## Results for Page " ++ toString (i + 1) ++ "\n\n" ++ body := by
  cases r with
  | none => exact ⟨failureMarker, rfl⟩
  | some t =>
    cases ht : t == "" with
    | true => exact ⟨failureMarker, by simp [pageSectionOf, ht, page_result_for_doc]⟩
    | false => exact ⟨t, by simp [pageSectionOf, ht, page_result_for_doc]⟩

/-- C1: whenever the analysis loop completes and yields a result list,
that list has exactly one section per page of the source document, and
the section at position j is headed with the 1-based page number j + 1,
so sections appear in strictly ascending page-index order regardless of
which page analyses failed. -/
theorem claim_C1_one_section_per_page_in_order (pages : List Page) (rs : List String)
    (h : all_resultsOf pages = Except.ok rs) :
    rs.length = pages.length ∧
    ∀ j, j < rs.length →
      ∃ body, rs[j]? =
        some ("## Results for Page " ++ toString (j + 1) ++ "\n\n" ++ body) := by
  have heq := analyzeFrom_ok_eq pages 0 rs h
  subst heq
  constructor
  · rw [sectionsFrom_length, List.length_map]
  · intro j hj
    rw [sectionsFrom_length, List.length_map] at hj
    have hlt : j < (pages.map fun p => analyze_image p.apiResult).length := by
      simpa using hj
    obtain ⟨r, hr⟩ : ∃ r, (pages.map fun p => analyze_image p.apiResult)[j]? = some r :=
      ⟨_, List.getElem?_eq_getElem hlt⟩
    have hsec := sectionsFrom_get _ 0 j r hr
    rw [Nat.zero_add] at hsec
    obtain ⟨body, hbody⟩ := pageSectionOf_shape j r
    exact ⟨body, by rw [hsec, hbody]⟩

/-- C1 witness: a two-page document where page 1 succeeds with text "T1"
and the analysis of page 2 fails. -/
theorem claim_C1_witness :
    all_resultsOf [pageOkT1, pageApiFail] =
      Except.ok ["## Results for Page 1\n\nT1",
                 "## Results for Page 2\n\n[ANALYSIS FAILED]"] ∧
    ((["## Results for Page 1\n\nT1",
       "## Results for Page 2\n\n[ANALYSIS FAILED]"] : List String).length =
        ([pageOkT1, pageApiFail] : List Page).length ∧
     ∀ j, j < (["## Results for Page 1\n\nT1",
                "## Results for Page 2\n\n[ANALYSIS FAILED]"] : List String).length →
       ∃ body, (["## Results for Page 1\n\nT1",
                 "## Results for Page 2\n\n[ANALYSIS FAILED]"] : List String)[j]? =
         some ("## Results for Page " ++ toString (j + 1) ++ "\n\n" ++ body)) :=
  ⟨rfl, claim_C1_one_section_per_page_in_order [pageOkT1, pageApiFail] _ rfl⟩

/-- C2 counterexample: a document whose first page has malformed page
data, so its render call raises. The uncaught exception aborts the run:
no Failure outcome is recorded for the page, the sibling page is never
processed and no report is produced — contradicting the claim that a
render failure is recorded as a failure outcome and processing
continues. -/
theorem claim_C2_counterexample :
    runPipeline [pageRenderFail, pageOkT1] = Except.error "malformed page data" := by
  rfl

/-- C2 amended: a render failure is not caught anywhere: if any page of
the document has a failing render, the whole run aborts with an uncaught
exception and produces no report; no outcome with reason "render error"
is ever recorded. -/
theorem claim_C2_render_failure_aborts_run (pages : List Page) (p : Page) (e : String)
    (hp : p ∈ pages) (he : p.renderResult = Except.error e) :
    ∃ d, runPipeline pages = Except.error d := by
  obtain ⟨d, hd⟩ := analyzeFrom_error_of_mem pages 0 p e hp he
  exact ⟨d, by simp [runPipeline, all_resultsOf, hd]⟩

/-- C2 witness: the amended statement applied to the two-page document
whose first page fails to render. -/
theorem claim_C2_witness :
    (pageRenderFail ∈ [pageRenderFail, pageOkT1] ∧
     pageRenderFail.renderResult = Except.error "malformed page data") ∧
    ∃ d, runPipeline [pageRenderFail, pageOkT1] = Except.error d :=
  ⟨⟨List.mem_cons_self pageRenderFail [pageOkT1], rfl⟩,
   claim_C2_render_failure_aborts_run [pageRenderFail, pageOkT1] pageRenderFail
     "malformed page data" (List.mem_cons_self pageRenderFail [pageOkT1]) rfl⟩

/-- C3 counterexample: on a zero-page document the pipeline does not fail
at all: the loop body never runs and the handler returns normally with no
error of any kind raised — there is no EmptyInputError in the program —
and merely produces no artifact. -/
theorem claim_C3_counterexample :
    runPipeline ([] : List Page) = Except.ok none ∧
    runPipeline ([] : List Page) ≠ Except.error "EmptyInputError" :=
  ⟨rfl, fun h => nomatch h⟩

/-- C3 amended: with zero pages no render, analyze or export work is done
(the loop yields the empty result list) and no export artifact is offered
— but no error is raised either: the run ends silently instead of failing
with an EmptyInputError. -/
theorem claim_C3_zero_pages_silent_noop :
    all_resultsOf ([] : List Page) = Except.ok [] ∧
    runPipeline ([] : List Page) = Except.ok none :=
  ⟨rfl, rfl⟩

/-- C4: for every outcome sequence, the section list carries one section
per outcome; the section for the outcome at position j is headed by the
1-based page number j + 1 as "## Results for Page N" and contains the
returned text verbatim when the analysis returned non-empty text, and the
literal marker "[ANALYSIS FAILED]" otherwise. -/
theorem claim_C4_section_text (outcomes : List (Option String)) (j : Nat) (r : Option String)
    (h : outcomes[j]? = some r) :
    (sectionsFrom 0 outcomes).length = outcomes.length ∧
    (sectionsFrom 0 outcomes)[j]? = some
      ("## Results for Page " ++ toString (j + 1) ++ "\n\n" ++
        (match r with
         | some t => if t == "" then "[ANALYSIS FAILED]" else t
         | none => "[ANALYSIS FAILED]")) := by
  refine ⟨sectionsFrom_length 0 outcomes, ?_⟩
  have hsec := sectionsFrom_get outcomes 0 j r h
  rw [Nat.zero_add] at hsec
  rw [hsec]
  cases r with
  | none => rfl
  | some t =>
    cases ht : t == "" with
    | true => simp [pageSectionOf, ht, page_result_for_doc, failureMarker]
    | false => simp [pageSectionOf, ht, page_result_for_doc]

/-- C4 witness: the outcome sequence of a page returning "T1" followed by
a failed analysis; the failed entry yields the marker section. -/
theorem claim_C4_witness :
    ([some "T1", none] : List (Option String))[1]? = some none ∧
    ((sectionsFrom 0 [some "T1", none]).length =
        ([some "T1", none] : List (Option String)).length ∧
     (sectionsFrom 0 [some "T1", none])[1]? =
       some "## Results for Page 2\n\n[ANALYSIS FAILED]") :=
  ⟨rfl, claim_C4_section_text [some "T1", none] 1 none rfl⟩

/-- C5: if every page of the document renders and the analysis call for
the page at position j fails — the generation call raised, so
analyze_image returned None, or it returned empty text — then the run
still completes with one outcome per page and the outcome for page j is
the failure-marker section: the failure is surfaced in the report and
processing continued past the page. -/
theorem claim_C5_analysis_failure_recorded (pages : List Page) (j : Nat) (p : Page)
    (hall : ∀ q ∈ pages, q.renderResult = Except.ok ())
    (hj : pages[j]? = some p)
    (hfail : analyze_image p.apiResult = none ∨ analyze_image p.apiResult = some "") :
    ∃ rs, all_resultsOf pages = Except.ok rs ∧ rs.length = pages.length ∧
      rs[j]? = some (page_result_for_doc j failureMarker) := by
  refine ⟨_, analyzeFrom_ok_of_renders pages 0 hall, ?_, ?_⟩
  · rw [sectionsFrom_length, List.length_map]
  · have hmap : (pages.map fun q => analyze_image q.apiResult)[j]? =
        some (analyze_image p.apiResult) := by
      rw [List.getElem?_map, hj]
      rfl
    have hsec := sectionsFrom_get _ 0 j _ hmap
    rw [Nat.zero_add] at hsec
    rw [hsec]
    rcases hfail with hf | hf
    · rw [hf]
      rfl
    · rw [hf]
      simp [pageSectionOf]

/-- C5 witness: a two-page document whose second page renders but whose
generation call raises a network error. -/
theorem claim_C5_witness :
    ((∀ q ∈ ([pageOkT1, pageApiFail] : List Page), q.renderResult = Except.ok ()) ∧
     ([pageOkT1, pageApiFail] : List Page)[1]? = some pageApiFail ∧
     analyze_image pageApiFail.apiResult = none) ∧
    ∃ rs, all_resultsOf [pageOkT1, pageApiFail] = Except.ok rs ∧
      rs.length = ([pageOkT1, pageApiFail] : List Page).length ∧
      rs[1]? = some (page_result_for_doc 1 failureMarker) :=
  ⟨⟨by intro q hq; fin_cases hq <;> rfl, rfl, rfl⟩,
   claim_C5_analysis_failure_recorded [pageOkT1, pageApiFail] 1 pageApiFail
     (by intro q hq; fin_cases hq <;> rfl) rfl (Or.inl rfl)⟩

/-- C6: for a fully rendering non-empty document the artifact text the
pipeline offers is exactly the per-page sections in input order joined
with the fixed blank-line separator — the aggregate of the ordered
analysis outcomes, with nothing reordered, deduplicated or dropped. -/
theorem claim_C6_report_is_ordered_join (pages : List Page)
    (hall : ∀ q ∈ pages, q.renderResult = Except.ok ())
    (hne : pages ≠ []) :
    runPipeline pages =
      Except.ok (some (aggregate (pages.map fun p => analyze_image p.apiResult))) := by
  have hok := analyzeFrom_ok_of_renders pages 0 hall
  have hne2 : sectionsFrom 0 (pages.map fun p => analyze_image p.apiResult) ≠ [] := by
    intro hempty
    apply hne
    have hlen := sectionsFrom_length 0 (pages.map fun p => analyze_image p.apiResult)
    rw [hempty] at hlen
    simp at hlen
    exact List.length_eq_zero.mp hlen.symm
  have hcond : ¬((sectionsFrom 0 (pages.map fun p => analyze_image p.apiResult)).isEmpty = true) := by
    intro hB
    exact hne2 (List.isEmpty_iff.mp hB)
  simp [runPipeline, all_resultsOf, hok, hcond, aggregate]

/-- C6 witness: the two-page document with one success and one analysis
failure; the artifact is the aggregate of its two outcomes. -/
theorem claim_C6_witness :
    ((∀ q ∈ ([pageOkT1, pageApiFail] : List Page), q.renderResult = Except.ok ()) ∧
     ([pageOkT1, pageApiFail] : List Page) ≠ []) ∧
    runPipeline [pageOkT1, pageApiFail] =
      Except.ok (some (aggregate
        (([pageOkT1, pageApiFail] : List Page).map fun p => analyze_image p.apiResult))) :=
  ⟨⟨by intro q hq; fin_cases hq <;> rfl, List.cons_ne_nil _ _⟩,
   claim_C6_report_is_ordered_join [pageOkT1, pageApiFail]
     (by intro q hq; fin_cases hq <;> rfl) (List.cons_ne_nil _ _)⟩

/-- C7: aggregation depends on nothing but the ordered outcome sequence:
two aggregation runs over equal outcome sequences produce byte-identical
report text. -/
theorem claim_C7_aggregate_deterministic (o1 o2 : List (Option String))
    (h : o1 = o2) : aggregate o1 = aggregate o2 := by
  rw [h]

/-- C7 witness: two aggregation runs over the same concrete two-outcome
sequence give the same text. -/
theorem claim_C7_witness :
    ([some "T1", none] : List (Option String)) = [some "T1", none] ∧
    aggregate [some "T1", none] = aggregate [some "T1", none] :=
  ⟨rfl, claim_C7_aggregate_deterministic [some "T1", none] [some "T1", none] rfl⟩

/-- When every page renders successfully, every loop iteration runs to
completion: the number of completed iterations is the page count. -/
theorem processedPages_eq_length (pages : List Page)
    (hall : ∀ q ∈ pages, q.renderResult = Except.ok ()) :
    processedPages pages = pages.length := by
  induction pages with
  | nil => rfl
  | cons q rest ih =>
    have hq : q.renderResult = Except.ok () := hall q (List.mem_cons_self q rest)
    have hrest : ∀ p ∈ rest, p.renderResult = Except.ok () :=
      fun p hp => hall p (List.mem_cons_of_mem q hp)
    simp [processedPages, hq, ih hrest]
    omega

/-- C8 counterexample: a three-page document whose middle page fails to
render. The loop completes only the first iteration — fewer than the
three pages of the document — because the uncaught render exception ends
the run early, so the pipeline does not process exactly len(doc) pages on
every input. -/
theorem claim_C8_counterexample :
    processedPages [pageOkT1, pageRenderFail, pageOkT2] ≠
      ([pageOkT1, pageRenderFail, pageOkT2] : List Page).length ∧
    processedPages [pageOkT1, pageRenderFail, pageOkT2] = 1 ∧
    runPipeline [pageOkT1, pageRenderFail, pageOkT2] =
      Except.error "malformed page data" :=
  ⟨by decide, rfl, rfl⟩

/-- C8 amended: the pipeline always terminates, and when every page of
the document renders successfully it completes exactly one iteration per
page — len(doc) pages processed, one appended section each, with no page
repeated or retried; a render failure instead stops the loop early at the
first failing page. -/
theorem claim_C8_processes_each_page_once (pages : List Page)
    (hall : ∀ q ∈ pages, q.renderResult = Except.ok ()) :
    processedPages pages = pages.length ∧
    ∃ rs, all_resultsOf pages = Except.ok rs ∧ rs.length = pages.length := by
  refine ⟨processedPages_eq_length pages hall,
    _, analyzeFrom_ok_of_renders pages 0 hall, ?_⟩
  rw [sectionsFrom_length, List.length_map]

/-- C8 witness: the amended statement applied to a fully rendering
two-page document. -/
theorem claim_C8_witness :
    (∀ q ∈ ([pageOkT1, pageOkT2] : List Page), q.renderResult = Except.ok ()) ∧
    (processedPages [pageOkT1, pageOkT2] = ([pageOkT1, pageOkT2] : List Page).length ∧
     ∃ rs, all_resultsOf [pageOkT1, pageOkT2] = Except.ok rs ∧
       rs.length = ([pageOkT1, pageOkT2] : List Page).length) :=
  ⟨by intro q hq; fin_cases hq <;> rfl,
   claim_C8_processes_each_page_once [pageOkT1, pageOkT2]
     (by intro q hq; fin_cases hq <;> rfl)⟩

/-- C9: analyze_image is total over every possible behaviour of the
underlying generation call: it either returns the text of a successful
call or returns None — every raised exception is swallowed by the
catch-all handler, so a failing analysis call can never abort the run. -/
theorem claim_C9_analyze_image_never_raises (call : Except String String) :
    (∃ t, call = Except.ok t ∧ analyze_image call = some t) ∨
    analyze_image call = none := by
  cases call with
  | ok t => exact Or.inl ⟨t, rfl, rfl⟩
  | error e => exact Or.inr rfl

/-- C10: aggregation is not injective: the distinct outcome sequences
"one success whose text equals the failure marker" and "one failed
analysis" produce byte-identical reports — both as outcome sequences fed
to the aggregation and as whole pipeline runs on distinct documents — so
a genuine failure cannot be told apart from a success that returned the
marker text. -/
theorem claim_C10_marker_not_injective :
    (some failureMarker : Option String) ≠ (none : Option String) ∧
    aggregate [some failureMarker] = aggregate [none] ∧
    runPipeline [⟨Except.ok (), Except.ok failureMarker⟩] =
      runPipeline [⟨Except.ok (), Except.error "network error"⟩] :=
  ⟨fun h => Option.noConfusion h, rfl, rfl⟩
